/-
Verification of the point-sampling routine of `sample_sentinel_data.py`
and of the batch driver that concatenates per-pair sample tables and
derives the RVI ratio column.

Shallow embedding conventions:
  * real-valued data is modelled over ℚ;
  * a missing value (numpy NaN) is `none : Option ℚ`;
  * a raised-and-caught exception becomes the `none` branch of an
    `Option`-valued computation;
  * the uncaught `IndexError` that `path.split('-')[4]` can raise makes
    the whole sampler `Option`-valued.
-/
import Mathlib

namespace SampleSentinel

/-- A ground control point, as produced by `rasterio`'s `get_gcps()`:
a pixel location `(col, row)` paired with a world location `(x, y)`. -/
structure GCP where
  col : ℚ
  row : ℚ
  x : ℚ
  y : ℚ
deriving DecidableEq, Repr

/-- The six coefficients of a rasterio/affine `Affine` transform:
`x = a·col + b·row + c`, `y = d·col + e·row + f`. -/
structure Affine6 where
  a : ℚ
  b : ℚ
  c : ℚ
  d : ℚ
  e : ℚ
  f : ℚ
deriving DecidableEq, Repr

/-- A raster band as the sampler sees it through `rasterio.open`:
dimensions, the native affine transform, the embedded GCP list and the
band data read by `src.read(1)` (a `height × width` grid). -/
structure Raster where
  width : ℕ
  height : ℕ
  transform : Affine6
  gcps : List GCP
  grid : List (List ℚ)
deriving DecidableEq, Repr

/-- A point of the shapefile after reprojection to lon/lat, together
with its `LTPC` label (missing label = `none`, a NaN cell). -/
structure Point where
  x : ℚ
  y : ℚ
  ltpc : Option ℚ
deriving DecidableEq, Repr

/-- One row of the per-pair DataFrame built at the end of
`sample_sentinel_data`: `ID`, `LTPC`, `Date`, `VV`, `VH`.  Strings are
modelled as `List Char`. -/
structure Record where
  id : ℕ
  ltpc : Option ℚ
  date : List Char
  vv : Option ℚ
  vh : Option ℚ
deriving DecidableEq, Repr

/-- Python's `str.split(sep)` for a one-character separator: cut the
character list at every occurrence of `sep`; the result always has at
least one (possibly empty) piece, as in Python. -/
def pySplit (sep : Char) (s : List Char) : List (List Char) :=
  s.foldr (fun ch acc =>
    match acc with
    | [] => [[ch]]
    | t :: ts => if ch = sep then [] :: t :: ts else (ch :: t) :: ts) [[]]

/-- Inverse of an `Affine6` applied to a world point, giving the
fractional `(colFrac, rowFrac)` pixel coordinates; `none` models the
exception rasterio raises on a singular transform. -/
def invAffine (t : Affine6) (x y : ℚ) : Option (ℚ × ℚ) :=
  let det := t.a * t.e - t.b * t.d
  if det = 0 then none
  else some (((x - t.c) * t.e - t.b * (y - t.f)) / det,
             (t.a * (y - t.f) - t.d * (x - t.c)) / det)

/-- `rasterio.DatasetReader.index(x, y)`: applies the inverse transform
and floors (its default `op=math.floor`), returning the pair in
`(row, col)` order as the library documents. -/
def rasterIndex (t : Affine6) (x y : ℚ) : Option (ℤ × ℤ) :=
  (invAffine t x y).map (fun p => (⌊p.2⌋, ⌊p.1⌋))

/-- `numpy.round` on a scalar: round half to even. -/
def npRound (q : ℚ) : ℤ :=
  let fl := ⌊q⌋
  let frac := q - fl
  if frac < 1/2 then fl
  else if 1/2 < frac then fl + 1
  else if 2 ∣ fl then fl else fl + 1

/-- Sum over the GCP list of a per-GCP expression (used to assemble the
normal equations of the least-squares fit at lines 67–71). -/
def gSum (gs : List GCP) (f : GCP → ℚ) : ℚ :=
  (gs.map f).sum

/-- Determinant of a 3×3 matrix given row by row. -/
def det3 (m11 m12 m13 m21 m22 m23 m31 m32 m33 : ℚ) : ℚ :=
  m11 * (m22 * m33 - m23 * m32)
    - m12 * (m21 * m33 - m23 * m31)
    + m13 * (m21 * m32 - m22 * m31)

/-- `np.linalg.lstsq(A, t)` for the design matrix `A` with rows
`(g.x, g.y, 1)` and targets `t g`, modelled in the determinate case by
solving the normal equations `AᵀA · z = Aᵀt` by Cramer's rule.  When the
normal matrix is singular (rank-deficient design, where numpy would
return a minimum-norm solution instead) this model returns `none`. -/
def lstsqSolve (gs : List GCP) (t : GCP → ℚ) : Option (ℚ × ℚ × ℚ) :=
  let s11 := gSum gs (fun g => g.x * g.x)
  let s12 := gSum gs (fun g => g.x * g.y)
  let s13 := gSum gs (fun g => g.x)
  let s22 := gSum gs (fun g => g.y * g.y)
  let s23 := gSum gs (fun g => g.y)
  let s33 := gSum gs (fun _ => 1)
  let u1 := gSum gs (fun g => g.x * t g)
  let u2 := gSum gs (fun g => g.y * t g)
  let u3 := gSum gs (fun g => t g)
  let dt := det3 s11 s12 s13 s12 s22 s23 s13 s23 s33
  if dt = 0 then none
  else some (det3 u1 s12 s13 u2 s22 s23 u3 s23 s33 / dt,
             det3 s11 u1 s13 s12 u2 s23 s13 u3 s33 / dt,
             det3 s11 s12 u1 s12 s22 u2 s13 s23 u3 / dt)

/-- Determinant of the normal matrix `AᵀA` of the GCP design matrix;
nonzero exactly when the least-squares fit is determinate. -/
def normalDet (gs : List GCP) : ℚ :=
  det3 (gSum gs (fun g => g.x * g.x)) (gSum gs (fun g => g.x * g.y)) (gSum gs (fun g => g.x))
       (gSum gs (fun g => g.x * g.y)) (gSum gs (fun g => g.y * g.y)) (gSum gs (fun g => g.y))
       (gSum gs (fun g => g.x)) (gSum gs (fun g => g.y)) (gSum gs (fun _ => 1))

/-- The fitted transformer of lines 56–75: built only when the GCP list
is nonempty (Python truthiness of `vv_gcps`) and has at least 3 entries;
`col_coeffs` fitted against `gcp.col`, `row_coeffs` against `gcp.row`.
A failure inside the `try` block leaves the transformer `None`. -/
def mkGcpTransformer (gs : List GCP) :
    Option ((ℚ × ℚ × ℚ) × (ℚ × ℚ × ℚ)) :=
  if gs.length ≠ 0 ∧ 3 ≤ gs.length then
    match lstsqSolve gs (fun g => g.col), lstsqSolve gs (fun g => g.row) with
    | some cc, some rc => some (cc, rc)
    | _, _ => none
  else none

/-- `world_to_pixel(lon, lat, src)` of lines 78–86, with the fitted
transformer captured from the first raster.  The GCP branch returns the
fractional `(col, row)`; the fallback returns `src.index(lon, lat)`,
which is in `(row, col)` order — exactly as in the source, where the
caller nevertheless unpacks the result as `col, row`. -/
def world_to_pixel (tr : Option ((ℚ × ℚ × ℚ) × (ℚ × ℚ × ℚ)))
    (src : Raster) (lon lat : ℚ) : Option (ℚ × ℚ) :=
  match tr with
  | some (cc, rc) =>
      some (cc.1 * lon + cc.2.1 * lat + cc.2.2,
            rc.1 * lon + rc.2.1 * lat + rc.2.2)
  | none => (rasterIndex src.transform lon lat).map
      (fun p => ((p.1 : ℚ), (p.2 : ℚ)))

/-- Read `grid[r][c]` for integer indices; `none` models the
`IndexError` a too-large index raises (negative indices are excluded by
the sampler's bounds check before any lookup). -/
def gridAt (g : List (List ℚ)) (r c : ℤ) : Option ℚ :=
  if 0 ≤ r ∧ 0 ≤ c then
    (g.get? r.toNat).bind (fun row => row.get? c.toNat)
  else none

/-- The per-point body of the two sampling loops (lines 96–110 and
115–126): convert, unpack as `col, row`, round, bounds-check against the
width/height read from the FIRST raster, and index into this raster's
grid; every failure path appends NaN (`none`). -/
def samplePoint (tr : Option ((ℚ × ℚ × ℚ) × (ℚ × ℚ × ℚ)))
    (vvWidth vvHeight : ℕ) (src : Raster) (pt : Point) : Option ℚ :=
  match world_to_pixel tr src pt.x pt.y with
  | none => none
  | some (col, row) =>
      let colInt := npRound col
      let rowInt := npRound row
      if 0 ≤ colInt ∧ colInt < (vvWidth : ℤ) ∧ 0 ≤ rowInt ∧ rowInt < (vvHeight : ℤ) then
        match gridAt src.grid rowInt colInt with
        | some v => some v
        | none => none
      else none

/-- Assembling the per-pair DataFrame of lines 131–137: one row per
point, zero-based `ID`, the point's `LTPC`, the shared date string, and
the two sampled values in order. -/
def buildRecords : List Point → List (Option ℚ) → List (Option ℚ) →
    List Char → ℕ → List Record
  | p :: ps, a :: more1, b :: more2, d, i =>
      { id := i, ltpc := p.ltpc, date := d, vv := a, vh := b } ::
        buildRecords ps more1 more2 d (i + 1)
  | _, _, _, _, _ => []

/-- `df.dropna()`: keep a row only when none of its cells is NaN.  `ID`
is an integer range and `Date` a string, so only `LTPC`, `VV`, `VH` can
be missing. -/
def allPresent (r : Record) : Bool :=
  r.ltpc.isSome && r.vv.isSome && r.vh.isSome

/-- The pre-filter table of one raster pair: transformer fitted from the
FIRST raster's GCPs, both loops bounds-checked against the FIRST
raster's width/height, each loop reading its own raster's grid and (in
the fallback) its own raster's transform. -/
def rawRecords (vv vh : Raster) (date : List Char) (points : List Point) :
    List Record :=
  let tr := mkGcpTransformer vv.gcps
  let vvVals := points.map (samplePoint tr vv.width vv.height vv)
  let vhVals := points.map (samplePoint tr vv.width vv.height vh)
  buildRecords points vvVals vhVals date 0

/-- `sample_sentinel_data` end to end: date token from
`sentinel_vv_path.split('-')[4]` (an uncaught `IndexError` when the
path has fewer than five hyphen-separated fields makes the result
`none`), then build and `dropna`. -/
def sample_sentinel_data (vv vh : Raster) (vvPath : List Char)
    (points : List Point) : Option (List Record) :=
  match (pySplit '-' vvPath).get? 4 with
  | none => none
  | some date => some ((rawRecords vv vh date points).filter allPresent)

/-- `pd.concat(all_samples, ignore_index=True)`: rows of all per-pair
tables in order, re-indexed `0, 1, 2, …`. -/
def concatIgnoreIndex (dfs : List (List Record)) : List (ℕ × Record) :=
  dfs.flatten.enum

/-- `4.0 * VH / (VV + VH)` with NaN propagation: a missing operand gives
a missing ratio. -/
def rviOpt (vv vh : Option ℚ) : Option ℚ :=
  match vv, vh with
  | some b1, some b2 => some ((4 * b2) / (b1 + b2))
  | _, _ => none

/-- One row of `final_df` after the `RVI` column is added. -/
structure FinalRow where
  idx : ℕ
  row : Record
  rvi : Option ℚ
deriving DecidableEq, Repr

/-- Lines 173–175: concatenate all per-pair tables with a fresh index
and add the `RVI` column computed row-wise from `VV` and `VH`. -/
def finalTable (dfs : List (List Record)) : List FinalRow :=
  (concatIgnoreIndex dfs).map (fun p => ⟨p.1, p.2, rviOpt p.2.vv p.2.vh⟩)

/-- Modelled from the spec, step 6 of the Point Sampler contract
("repeat steps 2–5 independently for the second raster … applied to
that raster's own metadata"): sampling in which the transformer and the
bounds-check dimensions come from the given raster itself. -/
def samplePointOwnMeta (src : Raster) (pt : Point) : Option ℚ :=
  samplePoint (mkGcpTransformer src.gcps) src.width src.height src pt

/- Concrete fixtures used by counterexamples and witnesses. -/

/-- The identity affine transform: world `(x, y)` = pixel `(col, row)`. -/
def affId : Affine6 := ⟨1, 0, 0, 0, 1, 0⟩

/-- A 4×8 grid whose entry at row `r`, column `c` is `10·r + c`. -/
def grid48 : List (List ℚ) :=
  [[0, 1, 2, 3, 4, 5, 6, 7],
   [10, 11, 12, 13, 14, 15, 16, 17],
   [20, 21, 22, 23, 24, 25, 26, 27],
   [30, 31, 32, 33, 34, 35, 36, 37]]

/-- A 4×4 grid whose entry at row `r`, column `c` is `10·r + c`. -/
def grid44 : List (List ℚ) :=
  [[0, 1, 2, 3], [10, 11, 12, 13], [20, 21, 22, 23], [30, 31, 32, 33]]

/-- A 10×5 grid whose entry at row `r`, column `c` is `10·r + c`. -/
def grid105 : List (List ℚ) :=
  [[0, 1, 2, 3, 4], [10, 11, 12, 13, 14], [20, 21, 22, 23, 24],
   [30, 31, 32, 33, 34], [40, 41, 42, 43, 44], [50, 51, 52, 53, 54],
   [60, 61, 62, 63, 64], [70, 71, 72, 73, 74], [80, 81, 82, 83, 84],
   [90, 91, 92, 93, 94]]

/-- Three GCPs exactly consistent with `col = x`, `row = y`. -/
def gcpsIdFit : List GCP := [⟨0, 0, 0, 0⟩, ⟨1, 0, 1, 0⟩, ⟨0, 1, 0, 1⟩]

/-- Three GCPs exactly consistent with `col = 2·x`, `row = 2·y`. -/
def gcpsDoubleFit : List GCP := [⟨0, 0, 0, 0⟩, ⟨2, 0, 1, 0⟩, ⟨0, 2, 0, 1⟩]

/-- First raster of the C1 counterexample: its GCPs fit the identity. -/
def vvDemo : Raster := ⟨8, 4, affId, gcpsIdFit, grid48⟩

/-- Second raster of the C1 counterexample: its own GCPs fit the
doubling map, so its own metadata disagrees with the first raster's. -/
def vhDemo : Raster := ⟨8, 4, affId, gcpsDoubleFit, grid48⟩

/-- The demo point, lon 3 lat 1, labelled. -/
def ptDemo : Point := ⟨3, 1, some 1⟩

/-- The demo point with a missing (NaN) label. -/
def ptNoLabel : Point := ⟨3, 1, none⟩

/-- A GCP-free 4×4 raster with the identity transform. -/
def rasterAff44 : Raster := ⟨4, 4, affId, [], grid44⟩

/-- A GCP-free 10-high, 5-wide raster with the identity transform. -/
def rasterAff105 : Raster := ⟨5, 10, affId, [], grid105⟩

/- Helper lemmas. -/

theorem gSum_nil (f : GCP → ℚ) : gSum [] f = 0 := rfl

theorem gSum_cons (g : GCP) (gs : List GCP) (f : GCP → ℚ) :
    gSum (g :: gs) f = f g + gSum gs f := by
  simp [gSum]

/-- Summing a weighted affine-consistent target distributes over the
weighted coordinate sums. -/
theorem gSum_affine (w t : GCP → ℚ) (a b c : ℚ) :
    ∀ gs : List GCP, (∀ g ∈ gs, t g = a * g.x + b * g.y + c) →
      gSum gs (fun g => w g * t g) =
        a * gSum gs (fun g => w g * g.x) + b * gSum gs (fun g => w g * g.y) +
          c * gSum gs w
  | [], _ => by simp [gSum]
  | g :: gs, h => by
      have hg := h g (by simp)
      have ih := gSum_affine w t a b c gs (fun g' hg' => h g' (by simp [hg']))
      simp only [gSum_cons]
      rw [hg, ih]; ring

/-- Cramer's rule for the first unknown of a symmetric 3×3 system whose
right-hand side is the matrix applied to `(a, b, c)`. -/
theorem cramer3_col1 (s11 s12 s13 s22 s23 s33 a b c : ℚ)
    (hdt : det3 s11 s12 s13 s12 s22 s23 s13 s23 s33 ≠ 0) :
    det3 (a * s11 + b * s12 + c * s13) s12 s13
         (a * s12 + b * s22 + c * s23) s22 s23
         (a * s13 + b * s23 + c * s33) s23 s33
      / det3 s11 s12 s13 s12 s22 s23 s13 s23 s33 = a := by
  rw [div_eq_iff hdt]; unfold det3; ring

/-- Cramer's rule for the second unknown. -/
theorem cramer3_col2 (s11 s12 s13 s22 s23 s33 a b c : ℚ)
    (hdt : det3 s11 s12 s13 s12 s22 s23 s13 s23 s33 ≠ 0) :
    det3 s11 (a * s11 + b * s12 + c * s13) s13
         s12 (a * s12 + b * s22 + c * s23) s23
         s13 (a * s13 + b * s23 + c * s33) s33
      / det3 s11 s12 s13 s12 s22 s23 s13 s23 s33 = b := by
  rw [div_eq_iff hdt]; unfold det3; ring

/-- Cramer's rule for the third unknown. -/
theorem cramer3_col3 (s11 s12 s13 s22 s23 s33 a b c : ℚ)
    (hdt : det3 s11 s12 s13 s12 s22 s23 s13 s23 s33 ≠ 0) :
    det3 s11 s12 (a * s11 + b * s12 + c * s13)
         s12 s22 (a * s12 + b * s22 + c * s23)
         s13 s23 (a * s13 + b * s23 + c * s33)
      / det3 s11 s12 s13 s12 s22 s23 s13 s23 s33 = c := by
  rw [div_eq_iff hdt]; unfold det3; ring

/-- On an exactly affine-consistent target with a nonsingular normal
matrix, the modelled `np.linalg.lstsq` recovers the affine coefficients
exactly. -/
theorem lstsqSolve_exact (gs : List GCP) (t : GCP → ℚ) (a b c : ℚ)
    (hdt : normalDet gs ≠ 0)
    (h : ∀ g ∈ gs, t g = a * g.x + b * g.y + c) :
    lstsqSolve gs t = some (a, b, c) := by
  have hu1 := gSum_affine (fun g => g.x) t a b c gs h
  have hu2 := gSum_affine (fun g => g.y) t a b c gs h
  have hu3 := gSum_affine (fun _ => (1 : ℚ)) t a b c gs h
  have ey : (fun (g : GCP) => g.y * g.x) = fun g => g.x * g.y := by
    funext g; ring
  have e1 : (fun (g : GCP) => 1 * t g) = t := by funext g; ring
  have e2 : (fun (g : GCP) => 1 * g.x) = fun (g : GCP) => g.x := by
    funext g; ring
  have e3 : (fun (g : GCP) => 1 * g.y) = fun (g : GCP) => g.y := by
    funext g; ring
  rw [ey] at hu2
  rw [e1, e2, e3] at hu3
  unfold normalDet at hdt
  simp only [lstsqSolve]
  rw [hu1, hu2, hu3, if_neg hdt,
    cramer3_col1 _ _ _ _ _ _ _ _ _ hdt,
    cramer3_col2 _ _ _ _ _ _ _ _ _ hdt,
    cramer3_col3 _ _ _ _ _ _ _ _ _ hdt]

/-- With at least three GCPs and a nonsingular normal matrix, the
transformer of lines 56–75 is built and carries the exact coefficients
of any affine map the GCPs are consistent with. -/
theorem mkGcpTransformer_exact (gs : List GCP) (a b c d e f : ℚ)
    (h3 : 3 ≤ gs.length) (hdt : normalDet gs ≠ 0)
    (hcol : ∀ g ∈ gs, g.col = a * g.x + b * g.y + c)
    (hrow : ∀ g ∈ gs, g.row = d * g.x + e * g.y + f) :
    mkGcpTransformer gs = some ((a, b, c), (d, e, f)) := by
  unfold mkGcpTransformer
  rw [if_pos ⟨by omega, h3⟩,
    lstsqSolve_exact gs (fun g => g.col) a b c hdt hcol,
    lstsqSolve_exact gs (fun g => g.row) d e f hdt hrow]

/-- `buildRecords` produces one record per point when the value columns
have matching lengths. -/
theorem buildRecords_length :
    ∀ (ps : List Point) (xs ys : List (Option ℚ)) (d : List Char) (i : ℕ),
      xs.length = ps.length → ys.length = ps.length →
      (buildRecords ps xs ys d i).length = ps.length
  | [], _, _, _, _, _, _ => by simp [buildRecords]
  | _ :: _, [], _, _, _, hx, _ => by simp at hx
  | _ :: _, _ :: _, [], _, _, _, hy => by simp at hy
  | p :: ps, x :: xs, y :: ys, d, i, hx, hy => by
      simp only [buildRecords, List.length_cons]
      rw [buildRecords_length ps xs ys d (i + 1)
        (by simpa using hx) (by simpa using hy)]

/-- Every record assembled by `buildRecords` carries the shared date. -/
theorem buildRecords_date :
    ∀ (ps : List Point) (xs ys : List (Option ℚ)) (d : List Char) (i : ℕ)
      (r : Record), r ∈ buildRecords ps xs ys d i → r.date = d
  | p :: ps, x :: xs, y :: ys, d, i, r, hr => by
      rcases (List.mem_cons).1 hr with h | h
      · rw [h]
      · exact buildRecords_date ps xs ys d (i + 1) r h
  | [], _, _, _, _, _, hr => by simp [buildRecords] at hr
  | _ :: _, [], _, _, _, _, hr => by simp [buildRecords] at hr
  | _ :: _, _ :: _, [], _, _, _, hr => by simp [buildRecords] at hr

/-- C4: when at least three GCPs are exactly consistent with an affine
map from world to pixel coordinates and determine it (nonsingular
normal matrix), the least-squares-fitted transformer reproduces that
map's pixel coordinates exactly — error `0 < 1e-6` — at every world
coordinate. -/
theorem C4_fitted_transformer_reproduces_affine (gs : List GCP)
    (src : Raster) (a b c d e f : ℚ) (h3 : 3 ≤ gs.length)
    (hdt : normalDet gs ≠ 0)
    (hcol : ∀ g ∈ gs, g.col = a * g.x + b * g.y + c)
    (hrow : ∀ g ∈ gs, g.row = d * g.x + e * g.y + f) :
    ∀ lon lat : ℚ,
      world_to_pixel (mkGcpTransformer gs) src lon lat =
        some (a * lon + b * lat + c, d * lon + e * lat + f) := by
  intro lon lat
  rw [mkGcpTransformer_exact gs a b c d e f h3 hdt hcol hrow]
  rfl

/-- C4 witness: the identity-consistent GCPs are reproduced exactly at
world coordinate (5, 7). -/
theorem C4_witness :
    world_to_pixel (mkGcpTransformer gcpsIdFit) vvDemo 5 7 = some (5, 7) := by
  have h := C4_fitted_transformer_reproduces_affine gcpsIdFit vvDemo 1 0 0 0 1 0
    (by decide)
    (by norm_num [normalDet, gSum, det3, gcpsIdFit])
    (by
      intro g hg
      simp only [gcpsIdFit, List.mem_cons, List.not_mem_nil, or_false] at hg
      rcases hg with rfl | rfl | rfl <;> norm_num)
    (by
      intro g hg
      simp only [gcpsIdFit, List.mem_cons, List.not_mem_nil, or_false] at hg
      rcases hg with rfl | rfl | rfl <;> norm_num)
    5 7
  norm_num at h
  exact h

/-- C5: with fewer than three GCPs no transformer is fitted and
`world_to_pixel` takes the native inverse-affine (`src.index`) path. -/
theorem C5_few_gcps_use_native_affine (gs : List GCP) (src : Raster)
    (lon lat : ℚ) (h : gs.length < 3) :
    mkGcpTransformer gs = none ∧
    world_to_pixel (mkGcpTransformer gs) src lon lat =
      (rasterIndex src.transform lon lat).map
        (fun p => ((p.1 : ℚ), (p.2 : ℚ))) := by
  have hn : mkGcpTransformer gs = none := by
    unfold mkGcpTransformer
    rw [if_neg]
    rintro ⟨-, h2⟩
    omega
  exact ⟨hn, by rw [hn]; rfl⟩

/-- C5 witness: with zero GCPs, the fallback is taken at (3, 2). -/
theorem C5_witness :
    mkGcpTransformer [] = none ∧
    world_to_pixel (mkGcpTransformer []) rasterAff44 3 2 =
      (rasterIndex rasterAff44.transform 3 2).map
        (fun p => ((p.1 : ℚ), (p.2 : ℚ))) :=
  C5_few_gcps_use_native_affine [] rasterAff44 3 2 (by decide)

/-- C7: every row of the final table carries
`RVI = 4·VH / (VV + VH)` computed from its own measured values, and in
particular `VV = 1`, `VH = 3` gives `3`. -/
theorem C7_rvi_ratio (dfs : List (List Record)) :
    (∀ row ∈ finalTable dfs,
      row.rvi = rviOpt row.row.vv row.row.vh ∧
      ∀ b1 b2 : ℚ, row.row.vv = some b1 → row.row.vh = some b2 →
        row.rvi = some (4 * b2 / (b1 + b2))) ∧
    rviOpt (some 1) (some 3) = some 3 := by
  constructor
  · intro row hrow
    simp only [finalTable, List.mem_map] at hrow
    obtain ⟨p, hp, rfl⟩ := hrow
    refine ⟨rfl, ?_⟩
    intro b1 b2 h1 h2
    have h1' : p.2.vv = some b1 := h1
    have h2' : p.2.vh = some b2 := h2
    simp [rviOpt, h1', h2']
  · norm_num [rviOpt]

/-- C7 witness: the hand-computed instance VV = 1, VH = 3. -/
theorem C7_witness : rviOpt (some 1) (some 3) = some 3 :=
  (C7_rvi_ratio []).2

/-- C8: concatenating two per-pair tables with `ignore_index=True`
yields exactly `N1 + N2` rows and pairwise distinct row indices. -/
theorem C8_concat_two_tables (t1 t2 : List Record) :
    (concatIgnoreIndex [t1, t2]).length = t1.length + t2.length ∧
    ((concatIgnoreIndex [t1, t2]).map Prod.fst).Nodup := by
  constructor
  · simp [concatIgnoreIndex]
  · have h : (concatIgnoreIndex [t1, t2]).map Prod.fst =
        List.range ([t1, t2].flatten).length := List.enum_map_fst _
    rw [h]
    exact List.nodup_range _

/-- Concrete run of the sampler on the demo pair: the VH value is taken
through the transformer fitted from the FIRST raster's GCPs (identity),
so pixel (col 3, row 1) of the VH grid is read, value 13. -/
theorem sampleDemo_eval :
    sample_sentinel_data vvDemo vhDemo ("a-b-c-d-20200101-001.tiff".data)
        [ptDemo] =
      some [⟨0, some 1, "20200101".data, some 13, some 13⟩] := by
  have hsplit : (pySplit '-' ("a-b-c-d-20200101-001.tiff".data)).get? 4 =
      some ("20200101".data) := by decide
  simp only [sample_sentinel_data, hsplit]
  norm_num [rawRecords, buildRecords, samplePoint, mkGcpTransformer,
    lstsqSolve, gSum, det3, world_to_pixel, rasterIndex, invAffine, npRound,
    gridAt, allPresent, vvDemo, vhDemo, ptDemo, affId, grid48, gcpsIdFit,
    gcpsDoubleFit]
  decide

/-- C1 counterexample: on the demo pair the sampler's VH value is 13
(pixel (3, 1), from the first raster's fitted transformer), while
sampling through the second raster's own metadata — its own GCP fit,
width and height, as the claim requires — gives 26 (pixel (6, 2)). -/
theorem C1_counterexample :
    sample_sentinel_data vvDemo vhDemo ("a-b-c-d-20200101-001.tiff".data)
        [ptDemo] =
      some [⟨0, some 1, "20200101".data, some 13, some 13⟩] ∧
    samplePointOwnMeta vhDemo ptDemo = some 26 ∧
    (some (13 : ℚ) : Option ℚ) ≠ some 26 := by
  refine ⟨sampleDemo_eval, ?_, by norm_num⟩
  norm_num [samplePointOwnMeta, samplePoint, mkGcpTransformer, lstsqSolve,
    gSum, det3, world_to_pixel, rasterIndex, invAffine, npRound, gridAt,
    vhDemo, ptDemo, affId, grid48, gcpsDoubleFit]
  decide

/-- C1 amended: the sampler never re-derives metadata from the second
raster — its output is unchanged under any modification of the second
raster's width, height or GCP list, as long as its grid and affine
transform (the only parts the VH loop consults) are kept. -/
theorem C1_amended_second_raster_metadata_unused (vv vh vh' : Raster)
    (path : List Char) (pts : List Point)
    (ht : vh.transform = vh'.transform) (hg : vh.grid = vh'.grid) :
    sample_sentinel_data vv vh path pts =
      sample_sentinel_data vv vh' path pts := by
  have hsp : samplePoint (mkGcpTransformer vv.gcps) vv.width vv.height vh =
      samplePoint (mkGcpTransformer vv.gcps) vv.width vv.height vh' := by
    funext pt
    unfold samplePoint world_to_pixel
    rw [ht, hg]
  simp only [sample_sentinel_data, rawRecords]
  rw [hsp]

/-- C1 witness: replacing the second demo raster's width, height and
GCPs by junk values does not change the sampler's output. -/
theorem C1_witness :
    sample_sentinel_data vvDemo vhDemo ("a-b-c-d-20200101-001.tiff".data)
        [ptDemo] =
      sample_sentinel_data vvDemo ⟨999, 999, affId, [], grid48⟩
        ("a-b-c-d-20200101-001.tiff".data) [ptDemo] :=
  C1_amended_second_raster_metadata_unused vvDemo vhDemo
    ⟨999, 999, affId, [], grid48⟩ ("a-b-c-d-20200101-001.tiff".data)
    [ptDemo] rfl rfl

/-- C2 evaluation at the failing input: for the point (3, 2) on a 4×4
identity-transform raster the converted pixel is (col 3, row 2),
strictly inside, and the grid stores 23 there — but the sampler
returns 32, the value at the transposed location (row 3, col 2),
because the affine fallback of `world_to_pixel` returns `src.index`'s
`(row, col)` pair which the caller unpacks as `col, row`. -/
theorem C2_swapped_lookup_eval :
    sample_sentinel_data rasterAff44 rasterAff44
        ("a-b-c-d-20200101-001.tiff".data) [⟨3, 2, some 1⟩] =
      some [⟨0, some 1, "20200101".data, some 32, some 32⟩] ∧
    invAffine rasterAff44.transform 3 2 = some (3, 2) ∧
    gridAt rasterAff44.grid 2 3 = some 23 ∧
    (32 : ℚ) ≠ 23 := by
  have hsplit : (pySplit '-' ("a-b-c-d-20200101-001.tiff".data)).get? 4 =
      some ("20200101".data) := by decide
  refine ⟨?_, ?_, ?_, by norm_num⟩
  · simp only [sample_sentinel_data, hsplit]
    norm_num [rawRecords, buildRecords, samplePoint, mkGcpTransformer,
      lstsqSolve, gSum, det3, world_to_pixel, rasterIndex, invAffine, npRound,
      gridAt, allPresent, rasterAff44, affId, grid44]
    decide
  · norm_num [invAffine, rasterAff44, affId]
  · norm_num [gridAt, rasterAff44, grid44]
    decide

/-- C3 evaluation at the failing input: on a 5-wide, 10-high
identity-transform raster the point (7, 2) converts to pixel
(col 7, row 2) with `col ≥ width`, so the claim requires a missing
value; the sampler instead records 72, the grid value at (row 7,
col 2), because the swapped unpacking makes the bounds check pass. -/
theorem C3_out_of_extent_still_sampled :
    sample_sentinel_data rasterAff105 rasterAff105
        ("a-b-c-d-20200101-001.tiff".data) [⟨7, 2, some 1⟩] =
      some [⟨0, some 1, "20200101".data, some 72, some 72⟩] ∧
    invAffine rasterAff105.transform 7 2 = some (7, 2) ∧
    (rasterAff105.width : ℤ) ≤ npRound 7 := by
  have hsplit : (pySplit '-' ("a-b-c-d-20200101-001.tiff".data)).get? 4 =
      some ("20200101".data) := by decide
  refine ⟨?_, ?_, ?_⟩
  · simp only [sample_sentinel_data, hsplit]
    norm_num [rawRecords, buildRecords, samplePoint, mkGcpTransformer,
      lstsqSolve, gSum, det3, world_to_pixel, rasterIndex, invAffine, npRound,
      gridAt, allPresent, rasterAff105, affId, grid105]
    decide
  · norm_num [invAffine, rasterAff105, affId]
  · norm_num [npRound, rasterAff105]

/-- C6: before filtering there is exactly one record per input point;
any record with a missing measured value is absent from the filtered
table, and every surviving record has both measured values present. -/
theorem C6_record_per_point_and_filter (vv vh : Raster) (d : List Char)
    (pts : List Point) :
    (rawRecords vv vh d pts).length = pts.length ∧
    (∀ r ∈ rawRecords vv vh d pts, r.vv = none ∨ r.vh = none →
      r ∉ (rawRecords vv vh d pts).filter allPresent) ∧
    ∀ r ∈ (rawRecords vv vh d pts).filter allPresent,
      r.vv.isSome ∧ r.vh.isSome := by
  refine ⟨?_, ?_, ?_⟩
  · unfold rawRecords
    exact buildRecords_length pts _ _ d 0 (by simp) (by simp)
  · intro r _ hmiss hmem
    rw [List.mem_filter] at hmem
    rcases hmiss with h | h <;> simp [allPresent, h] at hmem
  · intro r hr
    rw [List.mem_filter] at hr
    have h := hr.2
    simp only [allPresent, Bool.and_eq_true] at h
    exact ⟨h.1.2, h.2⟩

/-- C6 witness: one point gives one pre-filter record on the demo
pair. -/
theorem C6_witness :
    (rawRecords vvDemo vhDemo ("20200101".data) [ptDemo]).length =
      [ptDemo].length :=
  (C6_record_per_point_and_filter vvDemo vhDemo ("20200101".data) [ptDemo]).1

/-- C9: every record of a pair is dated with token 4 of the ENTIRE
first-raster path split on '-'; and a hyphen inside a directory
component shifts which token that is (the same filename under
`C:\my-dir` and `C:\mydir` yields different date strings). -/
theorem C9_date_token (vv vh : Raster) (path : List Char)
    (pts : List Point) (out : List Record) (d : List Char)
    (hd : (pySplit '-' path).get? 4 = some d)
    (hout : sample_sentinel_data vv vh path pts = some out) :
    (∀ r ∈ out, r.date = d) ∧
    (pySplit '-'
        ("C:\\my-dir\\s1a-iw-grd-hh-20200101t000000-x-001.tiff".data)).get? 4 ≠
      (pySplit '-'
        ("C:\\mydir\\s1a-iw-grd-hh-20200101t000000-x-001.tiff".data)).get? 4 := by
  constructor
  · intro r hr
    simp only [sample_sentinel_data, hd] at hout
    have hout' := Option.some.inj hout
    rw [← hout'] at hr
    have hraw := List.mem_of_mem_filter hr
    unfold rawRecords at hraw
    exact buildRecords_date pts _ _ d 0 r hraw
  · decide

/-- C9 witness: the demo run carries date token "20200101". -/
theorem C9_witness :
    (∀ r ∈ [(⟨0, some 1, "20200101".data, some 13, some 13⟩ : Record)],
      r.date = "20200101".data) ∧
    (pySplit '-'
        ("C:\\my-dir\\s1a-iw-grd-hh-20200101t000000-x-001.tiff".data)).get? 4 ≠
      (pySplit '-'
        ("C:\\mydir\\s1a-iw-grd-hh-20200101t000000-x-001.tiff".data)).get? 4 :=
  C9_date_token vvDemo vhDemo ("a-b-c-d-20200101-001.tiff".data) [ptDemo]
    [⟨0, some 1, "20200101".data, some 13, some 13⟩] ("20200101".data)
    (by decide) sampleDemo_eval

/-- C10: the final filter keeps a record exactly when all of its
nullable fields — the label and both measured values — are present; in
particular a point with a missing label is excluded even though both
band values were measured (demo: the pre-filter record is
(0, NaN, date, 13, 13) and the output is empty). -/
theorem C10_dropna_any_missing_field (vv vh : Raster) (d : List Char)
    (pts : List Point) :
    (∀ r, r ∈ (rawRecords vv vh d pts).filter allPresent ↔
      r ∈ rawRecords vv vh d pts ∧
        r.ltpc.isSome ∧ r.vv.isSome ∧ r.vh.isSome) ∧
    rawRecords vvDemo vhDemo ("20200101".data) [ptNoLabel] =
      [⟨0, none, "20200101".data, some 13, some 13⟩] ∧
    (rawRecords vvDemo vhDemo ("20200101".data) [ptNoLabel]).filter
        allPresent = [] := by
  refine ⟨?_, ?_, ?_⟩
  · intro r
    rw [List.mem_filter]
    simp [allPresent, and_assoc]
  · norm_num [rawRecords, buildRecords, samplePoint, mkGcpTransformer,
      lstsqSolve, gSum, det3, world_to_pixel, rasterIndex, invAffine, npRound,
      gridAt, vvDemo, vhDemo, ptNoLabel, affId, grid48, gcpsIdFit,
      gcpsDoubleFit]
    decide
  · have h : rawRecords vvDemo vhDemo ("20200101".data) [ptNoLabel] =
        [⟨0, none, "20200101".data, some 13, some 13⟩] := by
      norm_num [rawRecords, buildRecords, samplePoint, mkGcpTransformer,
        lstsqSolve, gSum, det3, world_to_pixel, rasterIndex, invAffine,
        npRound, gridAt, vvDemo, vhDemo, ptNoLabel, affId, grid48, gcpsIdFit,
        gcpsDoubleFit]
      decide
    rw [h]
    rfl

/-- C10 witness: the concrete missing-label record is built but
filtered out. -/
theorem C10_witness :
    rawRecords vvDemo vhDemo ("20200101".data) [ptNoLabel] =
      [⟨0, none, "20200101".data, some 13, some 13⟩] ∧
    (rawRecords vvDemo vhDemo ("20200101".data) [ptNoLabel]).filter
        allPresent = [] :=
  (C10_dropna_any_missing_field vvDemo vhDemo ("20200101".data)
    [ptNoLabel]).2

end SampleSentinel
